import Mathlib

/-!
Shallow embedding of `src/ict.py` (charge-transfer DCT/qCT calculation).

Density fields are 3-dimensional real-valued arrays; we embed them as
functions `Fin nx → Fin ny → Fin nz → ℚ` (exact rational arithmetic in
place of IEEE floats, as the claims are about the algebraic behaviour of
the pipeline).  The Euclidean norm used for DCT lives in `ℝ` because of
the square root.
-/

/-- A density field on an `nx × ny × nz` grid (numpy 3-D array of reals). -/
def Field3 (nx ny nz : ℕ) : Type := Fin nx → Fin ny → Fin nz → ℚ

/-- Sum of all entries of a 3-D array (`np.sum(density)`). -/
def totalDensity {nx ny nz : ℕ} (ρ : Field3 nx ny nz) : ℚ :=
  ∑ i : Fin nx, ∑ j : Fin ny, ∑ k : Fin nz, ρ i j k

/-- Embedding of `compute_density_difference` (src/ict.py lines 70-94):
`delta_rho = excited - ground`;
`delta_rho_plus  = np.where(delta_rho > 0, delta_rho, 0)`;
`delta_rho_minus = np.where(delta_rho < 0, delta_rho, 0)`. -/
def compute_density_difference {nx ny nz : ℕ} (ground_density excited_density : Field3 nx ny nz) :
    Field3 nx ny nz × Field3 nx ny nz :=
  (fun i j k =>
     let d := excited_density i j k - ground_density i j k
     if 0 < d then d else 0,
   fun i j k =>
     let d := excited_density i j k - ground_density i j k
     if d < 0 then d else 0)

/-- The index of a grid point along axis `a` (`np.indices(grid_size)[a]`):
axis 0 varies with `i`, axis 1 with `j`, axis 2 with `k`. -/
def axisIndex {nx ny nz : ℕ} (a : Fin 3) (i : Fin nx) (j : Fin ny) (k : Fin nz) : ℕ :=
  if a.val = 0 then i.val else if a.val = 1 then j.val else k.val

/-- The Cartesian coordinate of grid point `(i,j,k)` along axis `a`
(src/ict.py line 127: `origin[idx] + grid_indices[idx] * grid_spacing[idx][idx]`);
only the diagonal entry `spacing[a][a]` of the spacing matrix is used. -/
def gridPosition {nx ny nz : ℕ} (origin : Fin 3 → ℚ) (grid_spacing : Fin 3 → Fin 3 → ℚ)
    (a : Fin 3) (i : Fin nx) (j : Fin ny) (k : Fin nz) : ℚ :=
  origin a + (axisIndex a i j k : ℚ) * grid_spacing a a

/-- The density-weighted position sum along axis `a`
(`np.sum(grid_positions[idx] * density)`, src/ict.py line 136). -/
def weightedSum {nx ny nz : ℕ} (ρ : Field3 nx ny nz) (origin : Fin 3 → ℚ)
    (grid_spacing : Fin 3 → Fin 3 → ℚ) (a : Fin 3) : ℚ :=
  ∑ i : Fin nx, ∑ j : Fin ny, ∑ k : Fin nz, gridPosition origin grid_spacing a i j k * ρ i j k

/-- Embedding of `calculate_centroid` (src/ict.py lines 97-143): if the total
density is zero the zero vector is returned; otherwise each component is the
density-weighted position sum divided by the total density.  The thread pool of
the source computes the three axis components independently; the embedding
computes exactly the same per-axis values. -/
def calculate_centroid {nx ny nz : ℕ} (density : Field3 nx ny nz) (origin : Fin 3 → ℚ)
    (grid_spacing : Fin 3 → Fin 3 → ℚ) : Fin 3 → ℚ :=
  if totalDensity density = 0 then fun _ => 0
  else fun a => weightedSum density origin grid_spacing a / totalDensity density

/-- Division guarded against a zero divisor: `none` models a division-by-zero
fault, which total rational division in Lean would otherwise hide. -/
def checkedDiv (a b : ℚ) : Option ℚ :=
  if b = 0 then none else some (a / b)

/-- Variant of `calculate_centroid` with every division routed through `checkedDiv`:
returns `none` exactly when some executed division has a zero divisor. -/
def calculate_centroid_checked {nx ny nz : ℕ} (density : Field3 nx ny nz) (origin : Fin 3 → ℚ)
    (grid_spacing : Fin 3 → Fin 3 → ℚ) : Option (Fin 3 → ℚ) :=
  if totalDensity density = 0 then some (fun _ => 0)
  else
    match checkedDiv (weightedSum density origin grid_spacing 0) (totalDensity density),
          checkedDiv (weightedSum density origin grid_spacing 1) (totalDensity density),
          checkedDiv (weightedSum density origin grid_spacing 2) (totalDensity density) with
    | some c0, some c1, some c2 =>
        some (fun a => if a.val = 0 then c0 else if a.val = 1 then c1 else c2)
    | _, _, _ => none

/-- Euclidean norm of a 3-vector (`np.linalg.norm`). -/
noncomputable def linalgNorm (v : Fin 3 → ℚ) : ℝ :=
  Real.sqrt (∑ a : Fin 3, ((v a : ℝ)) ^ 2)

/-- Embedding of `compute_dct_and_qct` (src/ict.py lines 146-174):
`dct = np.linalg.norm(centroid_plus - centroid_minus)`,
`qct = np.sum(delta_rho_plus)`, returned with the two centroids. -/
noncomputable def compute_dct_and_qct {nx ny nz : ℕ}
    (delta_rho_plus delta_rho_minus : Field3 nx ny nz) (origin : Fin 3 → ℚ)
    (grid_spacing : Fin 3 → Fin 3 → ℚ) :
    ℝ × ℚ × (Fin 3 → ℚ) × (Fin 3 → ℚ) :=
  let centroid_plus := calculate_centroid delta_rho_plus origin grid_spacing
  let centroid_minus := calculate_centroid delta_rho_minus origin grid_spacing
  let dct := linalgNorm (fun a => centroid_plus a - centroid_minus a)
  let qct := totalDensity delta_rho_plus
  (dct, qct, centroid_plus, centroid_minus)

/-- Shared fact: the first component of `compute_density_difference` is the
positive part `max (e - g) 0` of the difference. -/
lemma cdd_fst_eq_max {nx ny nz : ℕ} (g e : Field3 nx ny nz) (i : Fin nx) (j : Fin ny) (k : Fin nz) :
    (compute_density_difference g e).1 i j k = max (e i j k - g i j k) 0 := by
  simp only [compute_density_difference]
  rcases le_or_lt (e i j k - g i j k) 0 with h | h
  · rw [if_neg (not_lt.mpr h), max_eq_right h]
  · rw [if_pos h, max_eq_left h.le]

/-- Shared fact: the second component of `compute_density_difference` is the
negative part `min (e - g) 0` of the difference. -/
lemma cdd_snd_eq_min {nx ny nz : ℕ} (g e : Field3 nx ny nz) (i : Fin nx) (j : Fin ny) (k : Fin nz) :
    (compute_density_difference g e).2 i j k = min (e i j k - g i j k) 0 := by
  simp only [compute_density_difference]
  rcases le_or_lt 0 (e i j k - g i j k) with h | h
  · rw [if_neg (not_lt.mpr h), min_eq_right h]
  · rw [if_pos h, min_eq_left h.le]

/-- C2: `compute_density_difference` returns the pointwise positive part
`max (excited - ground, 0)` and negative part `min (excited - ground, 0)` of
the density difference, and the two parts sum back to `excited - ground`
exactly at every grid cell. -/
theorem compute_density_difference_decomposition {nx ny nz : ℕ}
    (ground excited : Field3 nx ny nz) :
    (∀ i j k, (compute_density_difference ground excited).1 i j k
        = max (excited i j k - ground i j k) 0)
    ∧ (∀ i j k, (compute_density_difference ground excited).2 i j k
        = min (excited i j k - ground i j k) 0)
    ∧ (∀ i j k, (compute_density_difference ground excited).1 i j k
          + (compute_density_difference ground excited).2 i j k
        = excited i j k - ground i j k) := by
  refine ⟨fun i j k => cdd_fst_eq_max ground excited i j k,
          fun i j k => cdd_snd_eq_min ground excited i j k, fun i j k => ?_⟩
  rw [cdd_fst_eq_max, cdd_snd_eq_min]
  rcases le_or_lt (excited i j k - ground i j k) 0 with h | h
  · rw [max_eq_right h, min_eq_left h, zero_add]
  · rw [max_eq_left h.le, min_eq_right h.le, add_zero]

/-- C5 counterexample: with `ground ≡ 2` and `excited ≡ 0` on a 1×1×1 grid the
difference is `-2`, so `delta_plus - delta_minus = 0 - (-2) = 2`, which is not
`excited - ground = -2`: the subtraction form of the decomposition fails. -/
theorem c5_minus_form_fails :
    ¬ ((compute_density_difference (fun _ _ _ => (2 : ℚ) : Field3 1 1 1)
          (fun _ _ _ => (0 : ℚ))).1 0 0 0
        - (compute_density_difference (fun _ _ _ => (2 : ℚ) : Field3 1 1 1)
            (fun _ _ _ => (0 : ℚ))).2 0 0 0
      = (0 : ℚ) - 2) := by
  norm_num [compute_density_difference]

/-- C5 (amended): `delta_plus + delta_minus` equals `excited - ground` exactly,
and `delta_plus * delta_minus = 0` at every cell (the two parts never overlap
on a nonzero cell). -/
theorem density_difference_sum_and_disjoint {nx ny nz : ℕ}
    (ground excited : Field3 nx ny nz) :
    (∀ i j k, (compute_density_difference ground excited).1 i j k
          + (compute_density_difference ground excited).2 i j k
        = excited i j k - ground i j k)
    ∧ (∀ i j k, (compute_density_difference ground excited).1 i j k
          * (compute_density_difference ground excited).2 i j k = 0) := by
  constructor
  · intro i j k
    rw [cdd_fst_eq_max, cdd_snd_eq_min]
    rcases le_or_lt (excited i j k - ground i j k) 0 with h | h
    · rw [max_eq_right h, min_eq_left h, zero_add]
    · rw [max_eq_left h.le, min_eq_right h.le, add_zero]
  · intro i j k
    rw [cdd_fst_eq_max, cdd_snd_eq_min]
    rcases le_or_lt (excited i j k - ground i j k) 0 with h | h
    · rw [max_eq_right h, zero_mul]
    · rw [min_eq_right h.le, mul_zero]

/-- C9: the first output of `compute_density_difference` is everywhere
nonnegative, the second everywhere nonpositive, and the `qct` computed from
these outputs (the sum of the first output) is nonnegative. -/
theorem density_difference_signs_qct_nonneg {nx ny nz : ℕ}
    (ground excited : Field3 nx ny nz) (origin : Fin 3 → ℚ)
    (grid_spacing : Fin 3 → Fin 3 → ℚ) :
    (∀ i j k, 0 ≤ (compute_density_difference ground excited).1 i j k)
    ∧ (∀ i j k, (compute_density_difference ground excited).2 i j k ≤ 0)
    ∧ 0 ≤ (compute_dct_and_qct (compute_density_difference ground excited).1
            (compute_density_difference ground excited).2 origin grid_spacing).2.1 := by
  refine ⟨fun i j k => ?_, fun i j k => ?_, ?_⟩
  · rw [cdd_fst_eq_max]; exact le_max_right _ _
  · rw [cdd_snd_eq_min]; exact min_le_right _ _
  · show (0 : ℚ) ≤ totalDensity (compute_density_difference ground excited).1
    refine Finset.sum_nonneg fun i _ => Finset.sum_nonneg fun j _ =>
      Finset.sum_nonneg fun k _ => ?_
    rw [cdd_fst_eq_max]; exact le_max_right _ _

/-- C1: on a field with nonzero total sum, each centroid component is the
density-weighted mean position along that axis, the position of grid index
`(i,j,k)` on axis `a` being `origin a + index * spacing a a`; and the result
depends on the spacing matrix only through its diagonal entries. -/
theorem calculate_centroid_weighted_mean {nx ny nz : ℕ} (density : Field3 nx ny nz)
    (origin : Fin 3 → ℚ) (grid_spacing : Fin 3 → Fin 3 → ℚ)
    (h : totalDensity density ≠ 0) :
    (∀ a, calculate_centroid density origin grid_spacing a
        = (∑ i : Fin nx, ∑ j : Fin ny, ∑ k : Fin nz,
            (origin a + (axisIndex a i j k : ℚ) * grid_spacing a a) * density i j k)
          / totalDensity density)
    ∧ ∀ sp' : Fin 3 → Fin 3 → ℚ, (∀ b, sp' b b = grid_spacing b b) →
        calculate_centroid density origin sp' = calculate_centroid density origin grid_spacing := by
  constructor
  · intro a
    rw [calculate_centroid, if_neg h]
    simp only [weightedSum, gridPosition]
  · intro sp' hsp
    unfold calculate_centroid
    rw [if_neg h, if_neg h]
    funext a
    simp only [weightedSum, gridPosition, hsp a]

/-- Witness for C1 at a concrete input: a 1×1×1 grid with density 1,
origin 2 and spacing matrix having distinct off-diagonal entries. -/
theorem calculate_centroid_weighted_mean_witness :
    totalDensity (fun _ _ _ => (1 : ℚ) : Field3 1 1 1) ≠ 0
    ∧ ((∀ a, calculate_centroid (fun _ _ _ => (1 : ℚ) : Field3 1 1 1) (fun _ => 2)
            (fun a b => if a = b then 3 else 5) a
          = (∑ i : Fin 1, ∑ j : Fin 1, ∑ k : Fin 1,
              ((fun _ => (2 : ℚ)) a + (axisIndex a i j k : ℚ)
                * (fun a b => if a = b then (3 : ℚ) else 5) a a)
              * (fun _ _ _ => (1 : ℚ) : Field3 1 1 1) i j k)
            / totalDensity (fun _ _ _ => (1 : ℚ) : Field3 1 1 1))
      ∧ ∀ sp' : Fin 3 → Fin 3 → ℚ,
          (∀ b, sp' b b = (fun a b => if a = b then (3 : ℚ) else 5) b b) →
          calculate_centroid (fun _ _ _ => (1 : ℚ) : Field3 1 1 1) (fun _ => 2) sp'
            = calculate_centroid (fun _ _ _ => (1 : ℚ) : Field3 1 1 1) (fun _ => 2)
                (fun a b => if a = b then 3 else 5)) :=
  ⟨by norm_num [totalDensity, Fin.sum_univ_succ],
   calculate_centroid_weighted_mean _ _ _
     (by norm_num [totalDensity, Fin.sum_univ_succ])⟩

/-- C4: a field whose total sum is zero gets the zero 3-vector as centroid,
both in the plain embedding and in the division-checked embedding (where a
`some` result certifies that no division by zero occurred). -/
theorem calculate_centroid_zero_total {nx ny nz : ℕ} (density : Field3 nx ny nz)
    (origin : Fin 3 → ℚ) (grid_spacing : Fin 3 → Fin 3 → ℚ)
    (h : totalDensity density = 0) :
    calculate_centroid density origin grid_spacing = (fun _ => 0)
    ∧ calculate_centroid_checked density origin grid_spacing = some (fun _ => 0) := by
  unfold calculate_centroid calculate_centroid_checked
  rw [if_pos h, if_pos h]
  exact ⟨rfl, rfl⟩

/-- Witness for C4 at a concrete input: the all-zero field on a 2×2×2 grid
with a nontrivial geometry. -/
theorem calculate_centroid_zero_total_witness :
    totalDensity (fun _ _ _ => (0 : ℚ) : Field3 2 2 2) = 0
    ∧ (calculate_centroid (fun _ _ _ => (0 : ℚ) : Field3 2 2 2) (fun _ => 7)
          (fun _ _ => 9) = (fun _ => 0)
      ∧ calculate_centroid_checked (fun _ _ _ => (0 : ℚ) : Field3 2 2 2) (fun _ => 7)
          (fun _ _ => 9) = some (fun _ => 0)) :=
  ⟨by norm_num [totalDensity, Fin.sum_univ_succ],
   calculate_centroid_zero_total _ _ _
     (by norm_num [totalDensity, Fin.sum_univ_succ])⟩

/-- C10: the division-checked centroid computation always succeeds and agrees
with `calculate_centroid`: every division that is actually reached has a
nonzero divisor, because the zero-total case returns the zero vector first. -/
theorem calculate_centroid_no_div_by_zero {nx ny nz : ℕ} (density : Field3 nx ny nz)
    (origin : Fin 3 → ℚ) (grid_spacing : Fin 3 → Fin 3 → ℚ) :
    calculate_centroid_checked density origin grid_spacing
      = some (calculate_centroid density origin grid_spacing) := by
  unfold calculate_centroid_checked calculate_centroid
  by_cases h : totalDensity density = 0
  · rw [if_pos h, if_pos h]
  · rw [if_neg h, if_neg h]
    simp only [checkedDiv, if_neg h]
    congr 1
    funext a
    fin_cases a <;> simp

/-- C3: `compute_dct_and_qct` returns the Euclidean norm of the difference of
the two centroids as `dct`, the total of `delta_rho_plus` as `qct`, and the
centroids of `delta_rho_plus` and `delta_rho_minus` as computed by
`calculate_centroid`. -/
theorem compute_dct_and_qct_spec {nx ny nz : ℕ}
    (delta_rho_plus delta_rho_minus : Field3 nx ny nz) (origin : Fin 3 → ℚ)
    (grid_spacing : Fin 3 → Fin 3 → ℚ) :
    compute_dct_and_qct delta_rho_plus delta_rho_minus origin grid_spacing
      = (Real.sqrt (∑ a : Fin 3,
            ((calculate_centroid delta_rho_plus origin grid_spacing a
              - calculate_centroid delta_rho_minus origin grid_spacing a : ℚ) : ℝ) ^ 2),
         totalDensity delta_rho_plus,
         calculate_centroid delta_rho_plus origin grid_spacing,
         calculate_centroid delta_rho_minus origin grid_spacing) := rfl

/-- Shared fact: swapping the arguments of `compute_density_difference` turns
its first output into the pointwise negation of the second output. -/
lemma cdd_swap_fst {nx ny nz : ℕ} (g e : Field3 nx ny nz) :
    (compute_density_difference e g).1
      = fun i j k => -((compute_density_difference g e).2 i j k) := by
  funext i j k
  simp only [compute_density_difference]
  rcases lt_trichotomy (e i j k - g i j k) 0 with h | h | h
  · rw [if_pos (by linarith : (0 : ℚ) < g i j k - e i j k), if_pos h]; ring
  · rw [if_neg (by linarith : ¬ (0 : ℚ) < g i j k - e i j k),
        if_neg (by linarith : ¬ e i j k - g i j k < 0), neg_zero]
  · rw [if_neg (by linarith : ¬ (0 : ℚ) < g i j k - e i j k),
        if_neg (by linarith : ¬ e i j k - g i j k < 0), neg_zero]

/-- Shared fact: swapping the arguments of `compute_density_difference` turns
its second output into the pointwise negation of the first output. -/
lemma cdd_swap_snd {nx ny nz : ℕ} (g e : Field3 nx ny nz) :
    (compute_density_difference e g).2
      = fun i j k => -((compute_density_difference g e).1 i j k) := by
  funext i j k
  simp only [compute_density_difference]
  rcases lt_trichotomy (e i j k - g i j k) 0 with h | h | h
  · rw [if_neg (by linarith : ¬ g i j k - e i j k < 0),
        if_neg (by linarith : ¬ (0 : ℚ) < e i j k - g i j k), neg_zero]
  · rw [if_neg (by linarith : ¬ g i j k - e i j k < 0),
        if_neg (by linarith : ¬ (0 : ℚ) < e i j k - g i j k), neg_zero]
  · rw [if_pos (by linarith : g i j k - e i j k < 0), if_pos h]; ring

/-- Shared fact: the total of a pointwise-negated field is the negated total. -/
lemma totalDensity_neg {nx ny nz : ℕ} (f : Field3 nx ny nz) :
    totalDensity (fun i j k => -(f i j k)) = - totalDensity f := by
  simp [totalDensity, Finset.sum_neg_distrib]

/-- Shared fact: the weighted position sum of a pointwise-negated field is
negated. -/
lemma weightedSum_neg {nx ny nz : ℕ} (f : Field3 nx ny nz) (origin : Fin 3 → ℚ)
    (grid_spacing : Fin 3 → Fin 3 → ℚ) (a : Fin 3) :
    weightedSum (fun i j k => -(f i j k)) origin grid_spacing a
      = - weightedSum f origin grid_spacing a := by
  simp [weightedSum, Finset.sum_neg_distrib, mul_neg]

/-- Shared fact: the centroid of a pointwise-negated field equals the centroid
of the field (both the weighted sums and the total change sign, and the signs
cancel in the quotient; the zero-total sentinel is preserved). -/
lemma calculate_centroid_neg {nx ny nz : ℕ} (f : Field3 nx ny nz) (origin : Fin 3 → ℚ)
    (grid_spacing : Fin 3 → Fin 3 → ℚ) :
    calculate_centroid (fun i j k => -(f i j k)) origin grid_spacing
      = calculate_centroid f origin grid_spacing := by
  unfold calculate_centroid
  rw [totalDensity_neg f]
  by_cases h : totalDensity f = 0
  · rw [h, neg_zero]
    simp
  · rw [if_neg (fun hc => h (neg_eq_zero.mp hc)), if_neg h]
    funext a
    rw [weightedSum_neg, neg_div_neg_eq]

/-- Shared fact: the Euclidean norm of a difference of 3-vectors is symmetric
in its two arguments. -/
lemma linalgNorm_sub_symm (u v : Fin 3 → ℚ) :
    linalgNorm (fun a => u a - v a) = linalgNorm (fun a => v a - u a) := by
  unfold linalgNorm
  congr 1
  refine Finset.sum_congr rfl fun a _ => ?_
  push_cast
  ring

/-- C6 counterexample: on a 2×1×1 grid with ground ≡ 0 and excited = (1, -1)
(a charge-conserving difference), the original pipeline gives `qct = 1` while
the pipeline with ground and excited swapped also gives `qct = 1`, not
`-qct = -1`: swapping does not negate `qct`. -/
theorem c6_qct_not_negated :
    ¬ ((compute_dct_and_qct
          (compute_density_difference
            (fun i _ _ => if i.val = 0 then (1 : ℚ) else -1 : Field3 2 1 1)
            (fun _ _ _ => 0)).1
          (compute_density_difference
            (fun i _ _ => if i.val = 0 then (1 : ℚ) else -1 : Field3 2 1 1)
            (fun _ _ _ => 0)).2
          (fun _ => 0) (fun _ _ => 1)).2.1
      = -((compute_dct_and_qct
            (compute_density_difference (fun _ _ _ => (0 : ℚ) : Field3 2 1 1)
              (fun i _ _ => if i.val = 0 then (1 : ℚ) else -1)).1
            (compute_density_difference (fun _ _ _ => (0 : ℚ) : Field3 2 1 1)
              (fun i _ _ => if i.val = 0 then (1 : ℚ) else -1)).2
            (fun _ => 0) (fun _ _ => 1)).2.1)) := by
  norm_num [compute_dct_and_qct, compute_density_difference, totalDensity,
    Fin.sum_univ_succ]

/-- C6 (amended): swapping ground and excited negates the density difference
(so the positive and negative lobes are exchanged up to sign), swaps
`centroid_plus` with `centroid_minus`, and leaves `dct` unchanged; the swapped
`qct` equals `-sum(delta_rho_minus)` of the original run, which under exact
charge conservation (total difference mass zero) equals the original `qct`
unchanged — not its negation. -/
theorem swap_ground_excited_pipeline {nx ny nz : ℕ} (ground excited : Field3 nx ny nz)
    (origin : Fin 3 → ℚ) (grid_spacing : Fin 3 → Fin 3 → ℚ) :
    ((compute_density_difference excited ground).1
        = fun i j k => -((compute_density_difference ground excited).2 i j k))
    ∧ ((compute_density_difference excited ground).2
        = fun i j k => -((compute_density_difference ground excited).1 i j k))
    ∧ (calculate_centroid (compute_density_difference excited ground).1 origin grid_spacing
        = calculate_centroid (compute_density_difference ground excited).2 origin grid_spacing)
    ∧ (calculate_centroid (compute_density_difference excited ground).2 origin grid_spacing
        = calculate_centroid (compute_density_difference ground excited).1 origin grid_spacing)
    ∧ ((compute_dct_and_qct (compute_density_difference excited ground).1
          (compute_density_difference excited ground).2 origin grid_spacing).1
        = (compute_dct_and_qct (compute_density_difference ground excited).1
            (compute_density_difference ground excited).2 origin grid_spacing).1)
    ∧ ((compute_dct_and_qct (compute_density_difference excited ground).1
          (compute_density_difference excited ground).2 origin grid_spacing).2.1
        = - totalDensity (compute_density_difference ground excited).2)
    ∧ (totalDensity (compute_density_difference ground excited).1
          + totalDensity (compute_density_difference ground excited).2 = 0 →
        (compute_dct_and_qct (compute_density_difference excited ground).1
            (compute_density_difference excited ground).2 origin grid_spacing).2.1
          = (compute_dct_and_qct (compute_density_difference ground excited).1
              (compute_density_difference ground excited).2 origin grid_spacing).2.1) := by
  have h1 := cdd_swap_fst ground excited
  have h2 := cdd_swap_snd ground excited
  have hc1 : calculate_centroid (compute_density_difference excited ground).1 origin grid_spacing
      = calculate_centroid (compute_density_difference ground excited).2 origin grid_spacing := by
    rw [h1, calculate_centroid_neg]
  have hc2 : calculate_centroid (compute_density_difference excited ground).2 origin grid_spacing
      = calculate_centroid (compute_density_difference ground excited).1 origin grid_spacing := by
    rw [h2, calculate_centroid_neg]
  have hq : (compute_dct_and_qct (compute_density_difference excited ground).1
        (compute_density_difference excited ground).2 origin grid_spacing).2.1
      = - totalDensity (compute_density_difference ground excited).2 := by
    show totalDensity (compute_density_difference excited ground).1 = _
    rw [h1, totalDensity_neg]
  refine ⟨h1, h2, hc1, hc2, ?_, hq, ?_⟩
  · show linalgNorm _ = linalgNorm _
    rw [hc1, hc2]
    exact linalgNorm_sub_symm _ _
  · intro hcons
    rw [hq]
    show - totalDensity (compute_density_difference ground excited).2
        = totalDensity (compute_density_difference ground excited).1
    linarith

/-- Witness for the amended C6 at a concrete charge-conserving input: ground
≡ 0 and excited = (1, -1) on a 2×1×1 grid with identity-like geometry. -/
theorem swap_ground_excited_pipeline_witness :
    totalDensity (compute_density_difference (fun _ _ _ => (0 : ℚ) : Field3 2 1 1)
        (fun i _ _ => if i.val = 0 then (1 : ℚ) else -1)).1
      + totalDensity (compute_density_difference (fun _ _ _ => (0 : ℚ) : Field3 2 1 1)
          (fun i _ _ => if i.val = 0 then (1 : ℚ) else -1)).2 = 0
    ∧ (compute_dct_and_qct
          (compute_density_difference
            (fun i _ _ => if i.val = 0 then (1 : ℚ) else -1 : Field3 2 1 1)
            (fun _ _ _ => 0)).1
          (compute_density_difference
            (fun i _ _ => if i.val = 0 then (1 : ℚ) else -1 : Field3 2 1 1)
            (fun _ _ _ => 0)).2
          (fun _ => 3) (fun _ _ => 2)).2.1
      = (compute_dct_and_qct
          (compute_density_difference (fun _ _ _ => (0 : ℚ) : Field3 2 1 1)
            (fun i _ _ => if i.val = 0 then (1 : ℚ) else -1)).1
          (compute_density_difference (fun _ _ _ => (0 : ℚ) : Field3 2 1 1)
            (fun i _ _ => if i.val = 0 then (1 : ℚ) else -1)).2
          (fun _ => 3) (fun _ _ => 2)).2.1 :=
  ⟨by norm_num [compute_density_difference, totalDensity, Fin.sum_univ_succ],
   ((((((swap_ground_excited_pipeline (fun _ _ _ => (0 : ℚ) : Field3 2 1 1)
      (fun i _ _ => if i.val = 0 then (1 : ℚ) else -1)
      (fun _ => 3) (fun _ _ => 2)).2).2).2).2).2).2
     (by norm_num [compute_density_difference, totalDensity, Fin.sum_univ_succ])⟩

/-- Error taxonomy of the pipeline: file-level IO failure, parse failure
(`IndexError`/`ValueError` in the source, surfaced as the ParseError of the
spec taxonomy), and the grid-shape mismatch check of `main`. -/
inductive CTError where
  | ioError : CTError
  | parseError : CTError
  | shapeMismatchError : CTError
deriving DecidableEq

/-- A density array together with its runtime shape, so that two inputs of
different shapes can be compared, as `main` does with
`ground_density.shape != excited_density.shape`. -/
structure Density where
  n1 : ℕ
  n2 : ℕ
  n3 : ℕ
  data : Field3 n1 n2 n3

/-- The shape tuple of a density array (`density.shape`). -/
def Density.size (d : Density) : ℕ × ℕ × ℕ := (d.n1, d.n2, d.n3)

/-- Embedding of the computational part of `main` (src/ict.py lines 203-215):
if the two density shapes differ the run aborts with the shape-mismatch error
(the early `return` at lines 203-206), and only otherwise are
`compute_density_difference` and `compute_dct_and_qct` applied. -/
noncomputable def runPipeline (origin : Fin 3 → ℚ) (grid_spacing : Fin 3 → Fin 3 → ℚ)
    (ground excited : Density) :
    Except CTError (ℝ × ℚ × (Fin 3 → ℚ) × (Fin 3 → ℚ)) :=
  if h : ground.size = excited.size then
    let excitedData : Field3 ground.n1 ground.n2 ground.n3 := fun i j k =>
      excited.data (Fin.cast (congrArg (fun p => p.1) h) i)
        (Fin.cast (congrArg (fun p => p.2.1) h) j)
        (Fin.cast (congrArg (fun p => p.2.2) h) k)
    let dd := compute_density_difference ground.data excitedData
    Except.ok (compute_dct_and_qct dd.1 dd.2 origin grid_spacing)
  else Except.error CTError.shapeMismatchError

/-- C7: whenever the ground and excited grids have different shapes, the
pipeline aborts with the shape-mismatch error; no differencing or centroid
computation takes place (the error is produced by the shape check alone). -/
theorem runPipeline_shape_mismatch (origin : Fin 3 → ℚ) (grid_spacing : Fin 3 → Fin 3 → ℚ)
    (ground excited : Density) (h : ground.size ≠ excited.size) :
    runPipeline origin grid_spacing ground excited
      = Except.error CTError.shapeMismatchError := by
  rw [runPipeline, dif_neg h]

/-- Witness for C7 at the scenario of the spec: an all-zero 2×2×2 ground grid
against an all-zero 3×3×3 excited grid. -/
theorem runPipeline_shape_mismatch_witness :
    Density.size ⟨2, 2, 2, fun _ _ _ => 0⟩ ≠ Density.size ⟨3, 3, 3, fun _ _ _ => 0⟩
    ∧ runPipeline (fun _ => 0) (fun _ _ => 1)
        ⟨2, 2, 2, fun _ _ _ => 0⟩ ⟨3, 3, 3, fun _ _ _ => 0⟩
      = Except.error CTError.shapeMismatchError :=
  ⟨by decide,
   runPipeline_shape_mismatch _ _ _ _ (by decide)⟩

/-- A whitespace-separated token of a cube file after lexing: an
integer-literal token (accepted by both `int()` and `float()` in the source),
a real-literal token (accepted by `float()` only), or a token accepted by
neither. -/
inductive Token where
  | intTok : ℤ → Token
  | floatTok : ℚ → Token
  | badTok : Token
deriving DecidableEq

/-- Result of `int(token)` in Python: only an integer literal parses. -/
def Token.toInt : Token → Option ℤ
  | Token.intTok n => some n
  | _ => none

/-- Result of `float(token)` in Python: integer and real literals parse. -/
def Token.toFloat : Token → Option ℚ
  | Token.intTok n => some (n : ℚ)
  | Token.floatTok q => some q
  | Token.badTok => none

/-- Evaluation of `[float(x) for x in ts]`: every token must parse as a real,
otherwise the comprehension raises and the whole read fails. -/
def parseFloats : List Token → Option (List ℚ)
  | [] => some []
  | t :: ts =>
    match t.toFloat, parseFloats ts with
    | some q, some qs => some (q :: qs)
    | _, _ => none

/-- Parsing of one grid-axis line `lines[3+i]` (src/ict.py lines 44-49): the
first token is the integer point count, the remaining tokens are the real
spacing row; a missing line or first token is an `IndexError`, an unparseable
token a `ValueError`. -/
def readAxisLine (lines : List (List Token)) (i : ℕ) : Option (ℤ × List ℚ) :=
  (lines[i]?).bind fun l =>
  l.head?.bind fun t =>
  t.toInt.bind fun n =>
  (parseFloats l.tail).bind fun sp =>
  some (n, sp)

/-- Python slicing `l[i:]` with a possibly negative start index: a negative
start counts from the end of the list, clamped at 0. -/
def pyDropFrom {α : Type} (l : List α) (i : ℤ) : List α :=
  if i < 0 then l.drop (l.length - (-i).toNat) else l.drop i.toNat

/-- Shape admissibility of `np.reshape`, after numpy's own
fix-unknown-dimension logic: every negative entry counts as an unknown
dimension; more than one unknown is rejected; with exactly one unknown the
product of the known dimensions must be nonzero and divide the element count;
with no unknown that product must equal the element count exactly. -/
def npReshapeOk (dims : List ℤ) (count : ℕ) : Bool :=
  let unknowns := dims.filter fun d => d < 0
  let known := (dims.filter fun d => 0 ≤ d).prod
  match unknowns with
  | [] => known == (count : ℤ)
  | [_] => known != 0 && (count : ℤ) % known == 0
  | _ => false

/-- The quadruple returned by `read_cube_file`: origin, grid size, grid
spacing rows, and the flat density sequence (whose reshape to `grid_size` has
been checked). -/
structure CubeData where
  origin : List ℚ
  gridSize : List ℤ
  gridSpacing : List (List ℚ)
  density : List ℚ
deriving DecidableEq

/-- Boolean guard in the `Option` monad: `none` models a raised exception. -/
def ensure (b : Bool) : Option Unit :=
  if b then some () else none

/-- Embedding of the body of `read_cube_file` (src/ict.py lines 36-67) on the
lexed lines of an already-opened file: line 3 gives the atom count and origin,
lines 4-6 the per-axis point counts and spacing rows (collected into a
rectangular `np.array`, hence the equal-row-length guard), the lines from
`6 + num_atoms` onward give the flat density values, and the final reshape to
`grid_size` must be admissible.  Any failure is `none`. -/
def readCube (lines : List (List Token)) : Option CubeData :=
  (lines[2]?).bind fun atomLine =>
  atomLine.head?.bind fun t0 =>
  t0.toInt.bind fun numAtoms =>
  (parseFloats atomLine.tail).bind fun origin =>
  (readAxisLine lines 3).bind fun a1 =>
  (readAxisLine lines 4).bind fun a2 =>
  (readAxisLine lines 5).bind fun a3 =>
  (ensure (a1.2.length == a2.2.length && a2.2.length == a3.2.length)).bind fun _ =>
  (parseFloats (pyDropFrom lines (6 + numAtoms)).flatten).bind fun vals =>
  (ensure (npReshapeOk [a1.1, a2.1, a3.1] vals.length)).bind fun _ =>
  some ⟨origin, [a1.1, a2.1, a3.1], [a1.2, a2.2, a3.2], vals⟩

/-- The `read_cube_file` contract surfaced in the error taxonomy of the spec:
every parse-level failure (IndexError or ValueError in the source) aborts the
read as a parse error; a missing file would be `CTError.ioError` and is
outside this entry point, which starts from the file content. -/
def read_cube_file (lines : List (List Token)) : Except CTError CubeData :=
  match readCube lines with
  | some d => Except.ok d
  | none => Except.error CTError.parseError

/-- A cube file with a well-formed header: two comment lines, the atom-count
and origin line, three axis lines sharing one spacing row, `numAtoms` atom
records, and one final line with the flat density values. -/
def mkCubeLines (numAtoms : ℕ) (origin : List ℚ) (n1 n2 n3 : ℕ) (spacingRow : List ℚ)
    (atomLines : List (List Token)) (vals : List ℚ) : List (List Token) :=
  [[], [],
   Token.intTok (numAtoms : ℤ) :: origin.map Token.floatTok,
   Token.intTok (n1 : ℤ) :: spacingRow.map Token.floatTok,
   Token.intTok (n2 : ℤ) :: spacingRow.map Token.floatTok,
   Token.intTok (n3 : ℤ) :: spacingRow.map Token.floatTok]
  ++ atomLines ++ [vals.map Token.floatTok]

/-- Shared fact: a list of real-literal tokens parses back to its values. -/
lemma parseFloats_map_floatTok (l : List ℚ) : parseFloats (l.map Token.floatTok) = some l := by
  induction l with
  | nil => rfl
  | cons q qs ih => simp [parseFloats, Token.toFloat, ih]

/-- Shared fact: an axis line beyond the end of the file fails to parse. -/
lemma readAxisLine_short {lines : List (List Token)} {i : ℕ} (h : lines.length ≤ i) :
    readAxisLine lines i = none := by
  unfold readAxisLine
  rw [List.getElem?_eq_none h]
  rfl

/-- Shared fact: a successful cube read needs at least the six header lines. -/
lemma readCube_some_length {lines : List (List Token)} {out : CubeData}
    (h : readCube lines = some out) : 6 ≤ lines.length := by
  by_contra hlt
  push_neg at hlt
  have h5 : readAxisLine lines 5 = none := readAxisLine_short (by omega)
  unfold readCube at h
  simp [Option.bind_eq_some, h5] at h

/-- Shared fact: a successful boolean guard means the condition held. -/
lemma ensure_eq_some {b : Bool} {u : Unit} (h : ensure b = some u) : b = true := by
  cases b
  · simp [ensure] at h
  · rfl

/-- Shared fact: when every requested dimension is nonnegative, an admissible
reshape forces the element count to equal the product of the dimensions. -/
lemma npReshapeOk_nonneg_eq {dims : List ℤ} {count : ℕ}
    (hok : npReshapeOk dims count = true) (hnn : ∀ d ∈ dims, 0 ≤ d) :
    (count : ℤ) = dims.prod := by
  have h1 : dims.filter (fun d => decide (d < 0)) = [] := by
    rw [List.filter_eq_nil_iff]
    intro d hd
    simpa using not_lt.mpr (hnn d hd)
  have h2 : dims.filter (fun d => decide (0 ≤ d)) = dims := by
    rw [List.filter_eq_self]
    intro d hd
    exact decide_eq_true (hnn d hd)
  simp only [npReshapeOk, h1, h2] at hok
  rw [beq_iff_eq] at hok
  exact hok.symm

/-- Shared fact: in a well-formed constructed cube file the data slice
`lines[6 + num_atoms:]` is exactly the final values line. -/
lemma mkCubeLines_data_slice (numAtoms : ℕ) (origin : List ℚ) (n1 n2 n3 : ℕ)
    (row : List ℚ) (atoms : List (List Token)) (vals : List ℚ)
    (hatoms : atoms.length = numAtoms) :
    pyDropFrom (mkCubeLines numAtoms origin n1 n2 n3 row atoms vals) (6 + (numAtoms : ℤ))
      = [vals.map Token.floatTok] := by
  unfold pyDropFrom mkCubeLines
  rw [if_neg (by omega : ¬ (6 + (numAtoms : ℤ) < 0))]
  have h6 : ((6 : ℤ) + (numAtoms : ℤ)).toNat = 6 + numAtoms := by omega
  rw [h6]
  exact List.drop_left' (by simp [hatoms]; omega)

/-- C8: the cube-file reader surfaces malformation as parse errors and never
silently truncates.  (i) A file too short to hold the six header lines fails
with the parse error.  (ii) Any successful read whose declared grid sizes are
nonnegative (no unknown-dimension marker) returns exactly as many density
values as the product of `grid_size`.  (iii) A file with a well-formed header
and positive declared sizes whose flat value count differs from the declared
product fails with the parse error. -/
theorem read_cube_file_parse_contract :
    (∀ lines : List (List Token), lines.length ≤ 5 →
      read_cube_file lines = Except.error CTError.parseError)
    ∧ (∀ (lines : List (List Token)) (out : CubeData),
        read_cube_file lines = Except.ok out → (∀ d ∈ out.gridSize, 0 ≤ d) →
        (out.density.length : ℤ) = out.gridSize.prod)
    ∧ (∀ (numAtoms : ℕ) (origin : List ℚ) (n1 n2 n3 : ℕ) (row : List ℚ)
        (atoms : List (List Token)) (vals : List ℚ),
        atoms.length = numAtoms → vals.length ≠ n1 * n2 * n3 →
        read_cube_file (mkCubeLines numAtoms origin n1 n2 n3 row atoms vals)
          = Except.error CTError.parseError) := by
  refine ⟨?_, ?_, ?_⟩
  · intro lines hlen
    rcases hrc : readCube lines with _ | d
    · rw [read_cube_file, hrc]
    · exact absurd (readCube_some_length hrc) (by omega)
  · intro lines out hok hnn
    rcases hrc : readCube lines with _ | d
    · rw [read_cube_file, hrc] at hok
      exact absurd hok (by simp)
    · rw [read_cube_file, hrc] at hok
      injection hok with hd
      subst hd
      unfold readCube at hrc
      simp only [Option.bind_eq_some] at hrc
      obtain ⟨al, h2, t0, ht0, na, hna, orig, horig, a1, ha1, a2, ha2, a3, ha3,
        u1, hu1, vals, hvals, u2, hu2, hfin⟩ := hrc
      rw [Option.some.injEq] at hfin
      subst hfin
      exact npReshapeOk_nonneg_eq (ensure_eq_some hu2) (by simpa using hnn)
  · intro na origin n1 n2 n3 row atoms vals hatoms hne
    have hcast : ∀ m : ℕ, decide (((m : ℕ) : ℤ) < 0) = false :=
      fun m => decide_eq_false (not_lt.mpr (Int.natCast_nonneg m))
    have hcast2 : ∀ m : ℕ, decide ((0 : ℤ) ≤ ((m : ℕ) : ℤ)) = true :=
      fun m => decide_eq_true (Int.natCast_nonneg m)
    have hrk : npReshapeOk [(n1 : ℤ), (n2 : ℤ), (n3 : ℤ)] vals.length = false := by
      simp only [npReshapeOk, List.filter_cons, List.filter_nil, hcast, hcast2,
        Bool.false_eq_true, if_false, if_true]
      rw [beq_eq_false_iff_ne]
      intro h
      apply hne
      have h2 : ((n1 : ℤ)) * ((n2 : ℤ)) * ((n3 : ℤ)) = ((vals.length : ℕ) : ℤ) := by
        simpa [List.prod_cons, List.prod_nil, mul_assoc] using h
      exact_mod_cast h2.symm
    have h2 : (mkCubeLines na origin n1 n2 n3 row atoms vals)[2]?
        = some (Token.intTok (na : ℤ) :: origin.map Token.floatTok) := by
      simp [mkCubeLines]
    have ha3 : readAxisLine (mkCubeLines na origin n1 n2 n3 row atoms vals) 3
        = some ((n1 : ℤ), row) := by
      simp [readAxisLine, mkCubeLines, Token.toInt, parseFloats_map_floatTok]
    have ha4 : readAxisLine (mkCubeLines na origin n1 n2 n3 row atoms vals) 4
        = some ((n2 : ℤ), row) := by
      simp [readAxisLine, mkCubeLines, Token.toInt, parseFloats_map_floatTok]
    have ha5 : readAxisLine (mkCubeLines na origin n1 n2 n3 row atoms vals) 5
        = some ((n3 : ℤ), row) := by
      simp [readAxisLine, mkCubeLines, Token.toInt, parseFloats_map_floatTok]
    have hdata := mkCubeLines_data_slice na origin n1 n2 n3 row atoms vals hatoms
    have hnone : readCube (mkCubeLines na origin n1 n2 n3 row atoms vals) = none := by
      unfold readCube
      rw [h2]
      simp [ha3, ha4, ha5, hdata, Token.toInt, parseFloats_map_floatTok, ensure, hrk]
    rw [read_cube_file, hnone]

/-- Witness for C8 at concrete inputs: the empty file is too short; a minimal
well-formed file parses with value count equal to the grid-size product; a
well-formed 1×1×1 header with two density values fails as a parse error. -/
theorem read_cube_file_parse_contract_witness :
    (([] : List (List Token)).length ≤ 5
      ∧ read_cube_file [] = Except.error CTError.parseError)
    ∧ (read_cube_file (mkCubeLines 0 [] 0 0 0 [] [] [])
          = Except.ok (CubeData.mk [] [0, 0, 0] [[], [], []] [])
      ∧ (∀ d ∈ (CubeData.mk [] [0, 0, 0] [[], [], []] ([] : List ℚ)).gridSize, 0 ≤ d)
      ∧ ((CubeData.mk [] [0, 0, 0] [[], [], []] ([] : List ℚ)).density.length : ℤ)
          = (CubeData.mk [] [0, 0, 0] [[], [], []] ([] : List ℚ)).gridSize.prod)
    ∧ (([[], []] : List (List Token)).length = 2
      ∧ ([1, 2] : List ℚ).length ≠ 1 * 1 * 1
      ∧ read_cube_file (mkCubeLines 2 [] 1 1 1 [] [[], []] [1, 2])
          = Except.error CTError.parseError) :=
  ⟨⟨by decide, read_cube_file_parse_contract.1 [] (by decide)⟩,
   ⟨rfl, by decide,
    read_cube_file_parse_contract.2.1 (mkCubeLines 0 [] 0 0 0 [] [] [])
      (CubeData.mk [] [0, 0, 0] [[], [], []] []) rfl (by decide)⟩,
   ⟨rfl, by decide,
    read_cube_file_parse_contract.2.2 2 [] 1 1 1 [] [[], []] [1, 2] rfl (by decide)⟩⟩
